import Mathlib

/-!
Verification of the d3p DP-SVI core (`src/d3p/svi.py`) via a shallow embedding.

Modelling conventions:
* JAX / numpy floating point arithmetic is modelled over an arbitrary
  `LinearOrderedField α` (instantiated with `ℝ` in the theorems that need
  `Real.sqrt`, and with `ℚ` in concrete witnesses); IEEE rounding, infinities
  and NaN are not modelled.
* The square root used by `jnp.linalg.norm` is passed in as a function
  parameter `sqrt : α → α` so that all definitions stay computable; theorems
  about norms instantiate it with `Real.sqrt`.
* A gradient "site" (one tensor of the jax tree) is a flattened `List α`; a
  gradient structure (the flattened jax tree `px_grads_list`) is a
  `List (List α)`.  Per-example gradients are kept examples-major
  (`List (List (List α))`: examples, then sites); `jax.vmap` over the leading
  batch axis is modelled as a map over the examples-major list, and
  `jax.tree_flatten` / `jax.tree_unflatten` (a lossless round trip on the
  descriptor) are modelled as the identity on this representation.
* External collaborators (the d3p.random suite, the internal jax rng wrapper,
  numpyro's `SVI.init`, the autodiff engine producing per-example gradients,
  the external optimizer, and the fourier accountant) are abstract function
  parameters, as the spec declares them out of scope.
* Python exceptions are modelled with `Except String`.
-/

namespace D3P

/-! ### Data model (`DPSVIState`, numpyro's `SVIState`) -/

/-- Embeds `DPSVIState` (src/d3p/svi.py lines 40-43): optimizer state, rng key
and the cached observation scale. -/
structure DPSVIState (K O α : Type) where
  optimState : O
  rngKey : K
  observationScale : α
  deriving DecidableEq, Repr

/-- Embeds the relevant fields of numpyro's `SVIState` as returned by
`SVI.init` and inspected by `DPSVI.init` (src/d3p/svi.py lines 257-278). -/
structure SVIState (O M J : Type) where
  optimState : O
  mutableState : Option M
  rngKey : J
  deriving DecidableEq, Repr

section NormClip

variable {α : Type} [LinearOrderedField α]

/-- Sum of squares of a flattened tensor; `jnp.linalg.norm(v, ord=2)` is
`sqrt (sumSq v)`. -/
def sumSq (v : List α) : α := (v.map (fun x => x ^ 2)).sum

/-- Embeds `full_norm` (src/d3p/svi.py lines 83-105) for the default `ord=2`
(the only order exercised by clipping): treats the list of parts as one
concatenated vector and returns its 2-norm; the empty list returns `0.`.
The square root is a parameter to keep the definition computable. -/
def fullNorm (sqrt : α → α) (parts : List (List α)) : α :=
  if parts.length = 0 then 0
  else sqrt ((parts.map sumSq).sum)

/-- Embeds `normalize_gradient` (src/d3p/svi.py lines 108-121) for `ord=2`.
For an empty list `full_norm` returns the Python float `0.`, so the source
expression `1./full_norm(...)` raises `ZeroDivisionError`; for a non-empty
list the norm is a jax array and the division is total (we do not model the
IEEE infinity arising for a non-empty all-zero gradient). -/
def normalizeGradient (sqrt : α → α) (parts : List (List α)) :
    Except String (List (List α)) :=
  if parts.length = 0 then
    Except.error "ZeroDivisionError: float division by zero"
  else
    let normInv := (fullNorm sqrt parts)⁻¹
    Except.ok (parts.map (List.map (fun g => normInv * g)))

/-- The arithmetic performed by `clip_gradient` (src/d3p/svi.py lines
141-145) after the threshold guard has passed: every entry is scaled by
`rescale_factor / max(1, norm * rescale_factor / c)`. -/
def clipGradientRun (sqrt : α → α) (parts : List (List α)) (c rescaleFactor : α) :
    List (List α) :=
  let norm := fullNorm sqrt parts * rescaleFactor
  let normalizationConstant := (max 1 (norm / c))⁻¹
  let f := rescaleFactor * normalizationConstant
  parts.map (List.map (fun g => f * g))

/-- Embeds `clip_gradient` (src/d3p/svi.py lines 124-145): raises
`ValueError` for a non-positive threshold, otherwise rescales and clips the
total norm to `c`. -/
def clipGradient (sqrt : α → α) (parts : List (List α)) (c rescaleFactor : α) :
    Except String (List (List α)) :=
  if c ≤ 0 then
    Except.error "The clipping threshold must be greater than 0."
  else
    Except.ok (clipGradientRun sqrt parts c rescaleFactor)

end NormClip

section Pipeline

variable {α : Type} [LinearOrderedField α]
variable {K J O M P : Type}

/-- Embeds `DPSVI.perturbation_function` (src/d3p/svi.py lines 499-524),
generic in the randomness suite: one fresh rng split per site, i.i.d. noise of
standard deviation `perturbationScale` added elementwise.  `rnormal k n`
models `rng_suite.normal(k, shape)` returning `n` standard-normal draws. -/
def perturbationFunction {R : Type} (rsplit : R → ℕ → List R)
    (rnormal : R → ℕ → List α) (rng : R) (values : List (List α))
    (perturbationScale : α) : List (List α) :=
  let perSiteRngs := rsplit rng values.length
  List.zipWith
    (fun a siteRng =>
      List.zipWith (fun x noise => x + noise * perturbationScale) a
        (rnormal siteRng a.length))
    values perSiteRngs

/-- Embeds `DPSVI._clip_gradients` (src/d3p/svi.py lines 320-364): optional
pre-clipping perturbation (one jax rng per example, noise added by
`perturbation_function` over the internal jax rng wrapper), then per-example
clipping with rescale factor `1/observation_scale`.  The tree flattening is
the identity in our representation. -/
def clipGradientsStage (sqrt : α → α) (convert : K → J)
    (jsplit : J → ℕ → List J) (jnormal : J → ℕ → List α) (obsScale : α)
    (preClippingNoiseScale : Option α) (clippingThreshold : α)
    (stepRngKey : K) (pxGrads : List (List (List α))) (batchSize : ℕ) :
    Except String (List (List (List α))) :=
  let pxGrads1 :=
    match preClippingNoiseScale with
    | none => pxGrads
    | some noiseScale =>
        let clipPerturbationJaxRngs := jsplit (convert stepRngKey) batchSize
        List.zipWith
          (fun pxGrad rng => perturbationFunction jsplit jnormal rng pxGrad noiseScale)
          pxGrads clipPerturbationJaxRngs
  if clippingThreshold ≤ 0 then
    Except.error "The clipping threshold must be greater than 0."
  else
    Except.ok
      (pxGrads1.map (fun pxGrad => clipGradientRun sqrt pxGrad clippingThreshold obsScale⁻¹))

/-- Elementwise sum of two gradient structures (`jnp` array addition). -/
def addParts (a b : List (List α)) : List (List α) :=
  List.zipWith (List.zipWith (· + ·)) a b

/-- Sum of a batch of per-example gradient structures along the example axis. -/
def sumPxGrads : List (List (List α)) → List (List α)
  | [] => []
  | [g] => g
  | g :: gs => addParts g (sumPxGrads gs)

/-- Embeds `DPSVI._combine_gradients` (src/d3p/svi.py lines 366-386): batch
loss and batch gradient are the arithmetic mean (`jnp.mean`) of the
per-example values along the example axis. -/
def combineGradients (pxLoss : List α) (pxGrads : List (List (List α))) :
    α × List (List α) :=
  (pxLoss.sum / (pxLoss.length : α),
   (sumPxGrads pxGrads).map (List.map (fun x => x / (pxGrads.length : α))))

/-- Embeds `DPSVI._perturb_and_reassemble_gradients` (src/d3p/svi.py lines
388-419): Gaussian noise of standard deviation
`dp_scale * clipping_threshold / batch_size` is added once to the batch
gradient, and only then is every site multiplied by `observation_scale`.
Tree unflattening is the identity in our representation. -/
def perturbAndReassembleGradients (split : K → ℕ → List K)
    (normal : K → ℕ → List α) (obsScale : α) (stepRngKey : K)
    (gradientList : List (List α)) (dpScale clippingThreshold : α)
    (batchSize : ℕ) : List (List α) :=
  let perturbationScale := dpScale * clippingThreshold / (batchSize : α)
  let perturbedGradsList :=
    perturbationFunction split normal stepRngKey gradientList perturbationScale
  perturbedGradsList.map (fun grad => grad.map (fun x => x * obsScale))

/-- Embeds `DPSVI._split_rng_key` (src/d3p/svi.py lines 252-255): split the
training-state rng into `count + 1` substates, retain the first in the state
and hand out the rest.  `none` models the `IndexError` on an empty split. -/
def splitRngKey (split : K → ℕ → List K) (state : DPSVIState K O α)
    (count : ℕ) : Option (DPSVIState K O α × List K) :=
  match split state.rngKey (count + 1) with
  | [] => none
  | k0 :: rest => some ({ state with rngKey := k0 }, rest)

/-- Embeds `DPSVI.update` (src/d3p/svi.py lines 437-462).  The rng is split
into 4 substates: the first is retained, and the remaining three are
destructured as `(gradient_rng_key, perturbation_rng_key,
pre_clipping_rng_key)` — i.e. gradient computation, post-clip noise,
pre-clip noise, in that order.  `computePxGrads` abstracts
`_compute_per_example_gradients` (the external vmapped autodiff), returning
the per-example loss vector and the examples-major per-example gradients;
`optimUpdate` abstracts the external optimizer's `update`; the batch size is
`example_count(per_example_loss)`, the leading dimension of the loss vector. -/
def dpsviUpdate (sqrt : α → α) (split : K → ℕ → List K)
    (normal : K → ℕ → List α) (convert : K → J) (jsplit : J → ℕ → List J)
    (jnormal : J → ℕ → List α)
    (optimUpdate : List (List α) → O → O)
    (computePxGrads : O → K → List α × List (List (List α)))
    (clippingThreshold dpScale : α) (preClippingNoiseScale : Option α)
    (state : DPSVIState K O α) :
    Except String (DPSVIState K O α × α) :=
  match splitRngKey split state 3 with
  | some (state1, [gradientRngKey, perturbationRngKey, preClippingRngKey]) =>
      let pxResult := computePxGrads state1.optimState gradientRngKey
      let batchSize := pxResult.1.length
      (clipGradientsStage sqrt convert jsplit jnormal state1.observationScale
          preClippingNoiseScale clippingThreshold preClippingRngKey pxResult.2
          batchSize).map
        (fun clippedPxGrads =>
          let combined := combineGradients pxResult.1 clippedPxGrads
          let perturbedGradient :=
            perturbAndReassembleGradients split normal state1.observationScale
              perturbationRngKey combined.2 dpScale clippingThreshold batchSize
          ({ state1 with optimState := optimUpdate perturbedGradient state1.optimState },
           combined.1))
  | _ => Except.error "failed to unpack rng keys for the update step"

/-- Modelled from the spec: §4.3 step 1 claims the three derived randomness
substates are assigned to the stages in the order (gradient computation,
pre-clip noise, post-clip noise).  This variant differs from `dpsviUpdate`
(the source behaviour) only in that destructuring order: the second handed
substate goes to the pre-clipping noise stage and the third to the post-clip
perturbation stage. -/
def dpsviUpdateSpecKeyOrder (sqrt : α → α) (split : K → ℕ → List K)
    (normal : K → ℕ → List α) (convert : K → J) (jsplit : J → ℕ → List J)
    (jnormal : J → ℕ → List α)
    (optimUpdate : List (List α) → O → O)
    (computePxGrads : O → K → List α × List (List (List α)))
    (clippingThreshold dpScale : α) (preClippingNoiseScale : Option α)
    (state : DPSVIState K O α) :
    Except String (DPSVIState K O α × α) :=
  match splitRngKey split state 3 with
  | some (state1, [gradientRngKey, preClippingRngKey, perturbationRngKey]) =>
      let pxResult := computePxGrads state1.optimState gradientRngKey
      let batchSize := pxResult.1.length
      (clipGradientsStage sqrt convert jsplit jnormal state1.observationScale
          preClippingNoiseScale clippingThreshold preClippingRngKey pxResult.2
          batchSize).map
        (fun clippedPxGrads =>
          let combined := combineGradients pxResult.1 clippedPxGrads
          let perturbedGradient :=
            perturbAndReassembleGradients split normal state1.observationScale
              perturbationRngKey combined.2 dpScale clippingThreshold batchSize
          ({ state1 with optimState := optimUpdate perturbedGradient state1.optimState },
           combined.1))
  | _ => Except.error "failed to unpack rng keys for the update step"

/-- Embeds `get_observations_scale` (src/d3p/svi.py lines 46-68) after the
external model trace: `msgScales` are the `scale` entries of the observed
sample sites (`none` standing for Python `None`, treated as `1`); more than
one distinct scale raises, no site yields `1`, otherwise the unique scale is
returned. -/
def getObservationsScale {S : Type} [DecidableEq S] (one : S)
    (msgScales : List (Option S)) : Except String S :=
  let scales := (msgScales.map (fun s => s.getD one)).dedup
  if 1 < scales.length then
    Except.error
      "The model received several observation sites with different example counts. This is not supported in DPSVI."
  else
    match scales with
    | [] => Except.ok one
    | s :: _ => Except.ok s

/-- Embeds `DPSVI.init` (src/d3p/svi.py lines 257-278): run the external
`SVI.init` on the converted rng key, reject any mutable optimizer state with
`RuntimeError`, then probe the model for the observation scale and build the
initial `DPSVIState` carrying the original (non-jax) rng key.  `superInit`
abstracts `super().init`, `superGetParams` abstracts `super().get_params`,
and `traceScales` abstracts the model trace feeding `get_observations_scale`. -/
def dpsviInit [DecidableEq α] (convert : K → J)
    (superInit : J → SVIState O M J) (superGetParams : O → P)
    (traceScales : P → List (Option α)) (rngKey : K) :
    Except String (DPSVIState K O α) :=
  let sviState := superInit (convert rngKey)
  if sviState.mutableState.isSome then
    Except.error "Mutable state is not supported."
  else
    (getObservationsScale 1 (traceScales (superGetParams sviState.optimState))).map
      (fun observationScale =>
        { optimState := sviState.optimState
          rngKey := rngKey
          observationScale := observationScale })

end Pipeline

section Accountant

variable {α : Type} [LinearOrderedField α]

/-- Embeds `DPSVI._validate_epochs_and_iter` (src/d3p/svi.py lines 480-485):
if `num_epochs` is supplied the iteration count becomes `num_epochs / q`
(overwriting any supplied `num_iter`); if no iteration count results, raise
`ValueError`.  Python would raise `ZeroDivisionError` for `q = 0`; the
sampling ratio is positive in any valid use and that case is not modelled. -/
def validateEpochsAndIter (numEpochs numIter : Option α) (q : α) :
    Except String α :=
  let numIter1 :=
    match numEpochs with
    | some e => some (e / q)
    | none => numIter
  match numIter1 with
  | none => Except.error "A value must be supplied for either num_iter or num_epochs"
  | some n => Except.ok n

/-- Embeds `DPSVI.get_epsilon` (src/d3p/svi.py lines 487-491); `getEpsilonR`
abstracts the external `fourier_accountant.get_epsilon_R`, applied as
`get_epsilon_R(target_delta, dp_scale, q, ncomp=num_iter)`. -/
def getEpsilon (getEpsilonR : α → α → α → α → α) (dpScale : α)
    (targetDelta q : α) (numEpochs numIter : Option α) : Except String α :=
  (validateEpochsAndIter numEpochs numIter q).map
    (fun n => getEpsilonR targetDelta dpScale q n)

/-- Embeds `DPSVI.get_delta` (src/d3p/svi.py lines 493-497); `getDeltaR`
abstracts the external `fourier_accountant.get_delta_R`. -/
def getDelta (getDeltaR : α → α → α → α → α) (dpScale : α)
    (targetEpsilon q : α) (numEpochs numIter : Option α) : Except String α :=
  (validateEpochsAndIter numEpochs numIter q).map
    (fun n => getDeltaR targetEpsilon dpScale q n)

end Accountant

/-! ### Concrete collaborator instances used by witnesses and counterexamples -/

/-- A concrete splitting function on `ℕ` keys: `natSplit k n = [k, k+1, …, k+n-1]`. -/
def natSplit (k n : ℕ) : List ℕ := (List.range n).map (fun i => k + i)

/-- A concrete noise source over `ℚ` whose draws equal the key value, making
the consumed rng substate observable in the output. -/
def keyNormal (k n : ℕ) : List ℚ := List.replicate n (k : ℚ)

/-- A concrete silent noise source over `ℚ`. -/
def zeroNormal (_ : ℕ) (n : ℕ) : List ℚ := List.replicate n (0 : ℚ)

/-! ### Helper lemmas about the norm and clipping engine -/

section NormClipLemmas

variable {α : Type} [LinearOrderedField α]

lemma sumSq_nonneg (v : List α) : 0 ≤ sumSq v := by
  unfold sumSq
  refine List.sum_nonneg ?_
  intro x hx
  obtain ⟨y, _, rfl⟩ := List.mem_map.mp hx
  exact sq_nonneg y

lemma sumSq_map_mul (f : α) (v : List α) :
    sumSq (v.map (fun g => f * g)) = f ^ 2 * sumSq v := by
  unfold sumSq
  rw [List.map_map]
  have h : ((fun x => x ^ 2) ∘ fun g => f * g) = fun g => f ^ 2 * g ^ 2 := by
    funext g
    simp [mul_pow]
  rw [h, ← List.sum_map_mul_left]

lemma partsSumSq_nonneg (parts : List (List α)) : 0 ≤ (parts.map sumSq).sum := by
  refine List.sum_nonneg ?_
  intro x hx
  obtain ⟨v, _, rfl⟩ := List.mem_map.mp hx
  exact sumSq_nonneg v

lemma partsSumSq_map_mul (f : α) (parts : List (List α)) :
    ((parts.map (List.map (fun g => f * g))).map sumSq).sum
      = f ^ 2 * (parts.map sumSq).sum := by
  rw [List.map_map]
  have h : (sumSq ∘ List.map (fun g => f * g)) = fun v => f ^ 2 * sumSq v := by
    funext v
    simp [Function.comp, sumSq_map_mul]
  rw [h, ← List.sum_map_mul_left]

lemma fullNorm_real_eq (parts : List (List ℝ)) :
    fullNorm Real.sqrt parts = Real.sqrt ((parts.map sumSq).sum) := by
  unfold fullNorm
  split
  · next h =>
      rw [List.length_eq_zero.mp h]
      simp [Real.sqrt_zero]
  · rfl

lemma fullNorm_real_nonneg (parts : List (List ℝ)) :
    0 ≤ fullNorm Real.sqrt parts := by
  rw [fullNorm_real_eq]
  exact Real.sqrt_nonneg _

lemma fullNorm_real_scale (f : ℝ) (parts : List (List ℝ)) :
    fullNorm Real.sqrt (parts.map (List.map (fun g => f * g)))
      = |f| * fullNorm Real.sqrt parts := by
  rw [fullNorm_real_eq, fullNorm_real_eq, partsSumSq_map_mul,
    Real.sqrt_mul (sq_nonneg f), Real.sqrt_sq_eq_abs]

end NormClipLemmas

/-! ### Claim theorems -/

/-- C1: for every list of gradient parts and every threshold `C > 0`,
`clip_gradient` succeeds, the clipped result has `full_norm` at most `C`, and
if `full_norm` is already at most `C` the gradient is returned exactly
unchanged (the scaling factor is exactly `1`). -/
theorem clip_gradient_bounds_norm (parts : List (List ℝ)) (c : ℝ) (hc : 0 < c) :
    clipGradient Real.sqrt parts c 1 = Except.ok (clipGradientRun Real.sqrt parts c 1) ∧
    fullNorm Real.sqrt (clipGradientRun Real.sqrt parts c 1) ≤ c ∧
    (fullNorm Real.sqrt parts ≤ c → clipGradientRun Real.sqrt parts c 1 = parts) := by
  have hn : 0 ≤ fullNorm Real.sqrt parts := fullNorm_real_nonneg parts
  refine ⟨?_, ?_, ?_⟩
  · unfold clipGradient
    rw [if_neg (not_le.mpr hc)]
  · unfold clipGradientRun
    simp only [mul_one, one_mul]
    rw [fullNorm_real_scale]
    have hmax1 : (1 : ℝ) ≤ max 1 (fullNorm Real.sqrt parts / c) := le_max_left _ _
    have hfpos : 0 < (max 1 (fullNorm Real.sqrt parts / c))⁻¹ :=
      inv_pos.mpr (lt_of_lt_of_le one_pos hmax1)
    rw [abs_of_pos hfpos]
    rcases le_or_lt (fullNorm Real.sqrt parts) c with h | h
    · have hf1 : (max 1 (fullNorm Real.sqrt parts / c))⁻¹ ≤ 1 :=
        inv_le_one_of_one_le₀ hmax1
      calc (max 1 (fullNorm Real.sqrt parts / c))⁻¹ * fullNorm Real.sqrt parts
          ≤ 1 * fullNorm Real.sqrt parts := mul_le_mul_of_nonneg_right hf1 hn
        _ = fullNorm Real.sqrt parts := one_mul _
        _ ≤ c := h
    · have hdiv : 1 < fullNorm Real.sqrt parts / c := (one_lt_div hc).mpr h
      rw [max_eq_right (le_of_lt hdiv), inv_div]
      have hne : fullNorm Real.sqrt parts ≠ 0 := ne_of_gt (lt_trans hc h)
      rw [div_mul_cancel₀ c hne]
  · intro h
    unfold clipGradientRun
    simp only [mul_one, one_mul]
    have hdiv : fullNorm Real.sqrt parts / c ≤ 1 := (div_le_one hc).mpr h
    rw [max_eq_left hdiv]
    simp

/-- Witness for C1 at the concrete input `parts = [[3]]`, `C = 5`. -/
theorem clip_gradient_bounds_norm_witness :
    (0 : ℝ) < 5 ∧
    (clipGradient Real.sqrt [[3]] 5 1 = Except.ok (clipGradientRun Real.sqrt [[3]] 5 1) ∧
     fullNorm Real.sqrt (clipGradientRun Real.sqrt [[3]] 5 1) ≤ 5 ∧
     (fullNorm Real.sqrt [[3]] ≤ 5 → clipGradientRun Real.sqrt [[3]] 5 1 = [[3]])) :=
  ⟨by norm_num, clip_gradient_bounds_norm [[3]] 5 (by norm_num)⟩

/-- C7: `clip_gradient` raises the `InvalidArgument` condition (`ValueError`)
for every threshold `C ≤ 0` — in particular `C = 0` and `C = -1` — returning
no result, and for every `C > 0` it does not raise. -/
theorem clip_gradient_threshold_guard (parts : List (List ℝ)) (r : ℝ) :
    (∀ c : ℝ, c ≤ 0 →
      clipGradient Real.sqrt parts c r =
        Except.error "The clipping threshold must be greater than 0.") ∧
    clipGradient Real.sqrt parts 0 r =
      Except.error "The clipping threshold must be greater than 0." ∧
    clipGradient Real.sqrt parts (-1) r =
      Except.error "The clipping threshold must be greater than 0." ∧
    (∀ c : ℝ, 0 < c →
      clipGradient Real.sqrt parts c r =
        Except.ok (clipGradientRun Real.sqrt parts c r)) := by
  have herr : ∀ c : ℝ, c ≤ 0 →
      clipGradient Real.sqrt parts c r =
        Except.error "The clipping threshold must be greater than 0." := by
    intro c hc
    unfold clipGradient
    rw [if_pos hc]
  refine ⟨herr, herr 0 le_rfl, herr (-1) (by norm_num), ?_⟩
  intro c hc
  unfold clipGradient
  rw [if_neg (not_le.mpr hc)]

/-- Witness for C7 at `parts = [[2]]`, `r = 1`, thresholds `-1` and `1`. -/
theorem clip_gradient_threshold_guard_witness :
    (clipGradient Real.sqrt [[2]] (-1) 1 =
      Except.error "The clipping threshold must be greater than 0.") ∧
    clipGradient Real.sqrt [[2]] 1 1 =
      Except.ok (clipGradientRun Real.sqrt [[2]] 1 1) :=
  ⟨(clip_gradient_threshold_guard [[2]] 1).1 (-1) (by norm_num),
   (clip_gradient_threshold_guard [[2]] 1).2.2.2 1 (by norm_num)⟩

/-- C6 counterexample: contrary to the claim, `normalize_gradient` on an
empty gradient list does raise: `full_norm([])` is the Python float `0.`
and the source expression `1./0.` raises `ZeroDivisionError`. -/
theorem normalize_gradient_empty_raises :
    normalizeGradient Real.sqrt ([] : List (List ℝ)) =
      Except.error "ZeroDivisionError: float division by zero" := rfl

/-- C6 amended: `full_norm` of an empty input returns `0` as specified, but
`normalize_gradient` of an empty input raises a division-by-zero error
(rather than returning a result), because it divides by that zero norm. -/
theorem full_norm_empty_and_normalize_raises :
    fullNorm Real.sqrt ([] : List (List ℝ)) = 0 ∧
    ∃ msg, normalizeGradient Real.sqrt ([] : List (List ℝ)) = Except.error msg :=
  ⟨rfl, "ZeroDivisionError: float division by zero", rfl⟩

/-- C9: `get_epsilon` and `get_delta` raise the `InvalidArgument` condition
(`ValueError`) when neither `num_iter` nor `num_epochs` is supplied, and when
`num_epochs` is supplied the iteration count handed to the accountant is
`num_epochs / sampling_ratio`. -/
theorem accountant_validates_epochs_and_iter (accE accD : ℝ → ℝ → ℝ → ℝ → ℝ)
    (dpScale targetDelta targetEpsilon q numEpochs : ℝ) (numIter : Option ℝ) :
    getEpsilon accE dpScale targetDelta q none none =
      Except.error "A value must be supplied for either num_iter or num_epochs" ∧
    getDelta accD dpScale targetEpsilon q none none =
      Except.error "A value must be supplied for either num_iter or num_epochs" ∧
    getEpsilon accE dpScale targetDelta q (some numEpochs) numIter =
      Except.ok (accE targetDelta dpScale q (numEpochs / q)) ∧
    getDelta accD dpScale targetEpsilon q (some numEpochs) numIter =
      Except.ok (accD targetEpsilon dpScale q (numEpochs / q)) :=
  ⟨rfl, rfl, rfl, rfl⟩

/-- C10: when both `num_epochs` and `num_iter` are supplied, the iteration
count used is `num_epochs / sampling_ratio`; the directly supplied `num_iter`
is silently ignored (the result does not depend on it at all). -/
theorem validate_ignores_num_iter_when_epochs_given (numEpochs numIter q : ℝ) :
    validateEpochsAndIter (some numEpochs) (some numIter) q =
      Except.ok (numEpochs / q) ∧
    validateEpochsAndIter (some numEpochs) (some numIter) q =
      validateEpochsAndIter (some numEpochs) none q :=
  ⟨rfl, rfl⟩

/-- C2: in the post-clip perturbation step the Gaussian noise is applied once
to the aggregated batch gradient — one fresh rng split and one noise draw per
parameter site of the batch gradient, not per example — with standard
deviation `dp_scale * clipping_threshold / batch_size`, and only afterwards
is each site multiplied by `observation_scale`. -/
theorem perturb_noise_scale_and_order {α : Type} [LinearOrderedField α]
    {K : Type} (split : K → ℕ → List K) (normal : K → ℕ → List α)
    (obsScale : α) (stepRngKey : K) (batchGradient : List (List α))
    (dpScale clippingThreshold : α) (batchSize : ℕ) :
    perturbAndReassembleGradients split normal obsScale stepRngKey
        batchGradient dpScale clippingThreshold batchSize =
      List.zipWith
        (fun site siteRng =>
          List.zipWith
            (fun x noise =>
              (x + noise * (dpScale * clippingThreshold / (batchSize : α))) * obsScale)
            site (normal siteRng site.length))
        batchGradient (split stepRngKey batchGradient.length) := by
  unfold perturbAndReassembleGradients perturbationFunction
  rw [List.map_zipWith]
  have h :
      (fun site siteRng =>
        (List.zipWith
            (fun x noise =>
              x + noise * (dpScale * clippingThreshold / (batchSize : α)))
            site (normal siteRng site.length)).map (fun x => x * obsScale)) =
      (fun site siteRng =>
        List.zipWith
          (fun x noise =>
            (x + noise * (dpScale * clippingThreshold / (batchSize : α))) * obsScale)
          site (normal siteRng site.length)) := by
    funext site siteRng
    rw [List.map_zipWith]
  rw [h]

/-- A single scalar parameter site has `full_norm` equal to its absolute
value. -/
lemma fullNorm_real_singleton (x : ℝ) : fullNorm Real.sqrt [[x]] = |x| := by
  rw [fullNorm_real_eq]
  simp [sumSq, Real.sqrt_sq_eq_abs]

/-- Clipping a single scalar parameter site with rescale factor `1`. -/
lemma clipGradientRun_singleton (x c : ℝ) :
    clipGradientRun Real.sqrt [[x]] c 1 = [[(max 1 (|x| / c))⁻¹ * x]] := by
  unfold clipGradientRun
  simp [fullNorm_real_singleton]

/-- C4: the batch gradient and batch loss are the arithmetic mean of the
per-example values along the example axis; in the end-to-end scenario of 4
examples with one scalar parameter, raw per-example gradients
`[10, -10, 5, -5]`, `C = 1`, `observation_scale = 1` and `dp_scale = 0`
(noise-free perturbation left to its collaborator), the per-example clipped
values are `[1, -1, 1, -1]` and the aggregated batch gradient is `0`. -/
theorem combine_is_mean_and_scenario :
    (∀ (pxLoss : List ℝ) (pxGrads : List (List (List ℝ))),
      combineGradients pxLoss pxGrads =
        (pxLoss.sum / (pxLoss.length : ℝ),
         (sumPxGrads pxGrads).map (List.map (fun x => x / (pxGrads.length : ℝ))))) ∧
    clipGradientsStage Real.sqrt (fun k : Unit => k)
        (fun _ n => List.replicate n ()) (fun _ n => List.replicate n (0 : ℝ))
        1 none 1 () [[[10]], [[-10]], [[5]], [[-5]]] 4 =
      Except.ok [[[1]], [[-1]], [[1]], [[-1]]] ∧
    (∀ pxLoss : List ℝ,
      (combineGradients pxLoss [[[(1 : ℝ)]], [[-1]], [[1]], [[-1]]]).2 = [[0]]) := by
  refine ⟨fun _ _ => rfl, ?_, ?_⟩
  · have e10 : clipGradientRun Real.sqrt [[(10 : ℝ)]] 1 1 = [[1]] := by
      rw [clipGradientRun_singleton]
      norm_num [max_eq_right]
    have em10 : clipGradientRun Real.sqrt [[(-10 : ℝ)]] 1 1 = [[-1]] := by
      rw [clipGradientRun_singleton]
      norm_num [max_eq_right]
    have e5 : clipGradientRun Real.sqrt [[(5 : ℝ)]] 1 1 = [[1]] := by
      rw [clipGradientRun_singleton]
      norm_num [max_eq_right]
    have em5 : clipGradientRun Real.sqrt [[(-5 : ℝ)]] 1 1 = [[-1]] := by
      rw [clipGradientRun_singleton]
      norm_num [max_eq_right]
    unfold clipGradientsStage
    rw [if_neg (by norm_num : ¬ (1 : ℝ) ≤ 0)]
    simp only [inv_one, List.map_cons, List.map_nil, e10, em10, e5, em5]
  · intro pxLoss
    simp only [combineGradients, sumPxGrads, addParts, List.zipWith_cons_cons,
      List.zipWith_nil_right, List.zipWith_nil_left, List.map_cons, List.map_nil]
    norm_num

/-- C3 counterexample: the claim's stage order (gradient computation,
pre-clip noise, post-clip noise) is falsified at a concrete input.  With keys
`[0,1,2,3]` derived from the state rng, a noise source that outputs its key
value, and otherwise degenerate collaborators, the source update
(`dpsviUpdate`, which hands the 2nd derived substate to the post-clip noise
stage) produces a batch gradient of `2`, while an update assigning the
substates in the claimed order (`dpsviUpdateSpecKeyOrder`, post-clip noise
from the 3rd substate) produces `3`. -/
theorem update_key_order_counterexample :
    dpsviUpdate (fun x : ℚ => x) natSplit keyNormal (fun k : ℕ => k) natSplit
        keyNormal (fun g _ => g) (fun _ _ => ([0], [[[0]]])) 1 1 none
        ⟨([] : List (List ℚ)), 0, 1⟩ ≠
      dpsviUpdateSpecKeyOrder (fun x : ℚ => x) natSplit keyNormal
        (fun k : ℕ => k) natSplit keyNormal (fun g _ => g)
        (fun _ _ => ([0], [[[0]]])) 1 1 none ⟨([] : List (List ℚ)), 0, 1⟩ := by
  intro h
  have hsp : natSplit 0 4 = [0, 1, 2, 3] := by decide
  have h4 : (3 : ℕ) + 1 = 4 := rfl
  have h1 :
      dpsviUpdate (fun x : ℚ => x) natSplit keyNormal (fun k : ℕ => k) natSplit
          keyNormal (fun g _ => g) (fun _ _ => ([0], [[[0]]])) 1 1 none
          ⟨([] : List (List ℚ)), 0, 1⟩ =
        Except.ok (⟨[[2]], 0, 1⟩, 0) := by
    unfold dpsviUpdate splitRngKey
    rw [h4, hsp]
    simp [clipGradientsStage, clipGradientRun, fullNorm, sumSq,
      combineGradients, sumPxGrads, addParts, perturbAndReassembleGradients,
      perturbationFunction, keyNormal, natSplit, List.range_succ, Except.map]
    norm_num [sumPxGrads, addParts, show List.range 1 = [0] from rfl]
  have h2 :
      dpsviUpdateSpecKeyOrder (fun x : ℚ => x) natSplit keyNormal
          (fun k : ℕ => k) natSplit keyNormal (fun g _ => g)
          (fun _ _ => ([0], [[[0]]])) 1 1 none ⟨([] : List (List ℚ)), 0, 1⟩ =
        Except.ok (⟨[[3]], 0, 1⟩, 0) := by
    unfold dpsviUpdateSpecKeyOrder splitRngKey
    rw [h4, hsp]
    simp [clipGradientsStage, clipGradientRun, fullNorm, sumSq,
      combineGradients, sumPxGrads, addParts, perturbAndReassembleGradients,
      perturbationFunction, keyNormal, natSplit, List.range_succ, Except.map]
    norm_num [sumPxGrads, addParts, show List.range 1 = [0] from rfl]
  rw [h1, h2] at h
  simp only [Except.ok.injEq, Prod.mk.injEq, DPSVIState.mk.injEq,
    List.cons.injEq] at h
  exact absurd h.1.1.1.1 (by norm_num)

/-- C3 amended: `DPSVI.update` derives 4 substates from the training-state
rng; the first is retained as the state's new rng (and handed to no stage),
and the remaining three are assigned in the order (gradient computation,
post-clip noise, pre-clip noise) — the source destructures them as
`gradient_rng_key, perturbation_rng_key, pre_clipping_rng_key`.  The
equation exhibits `k1` flowing to the per-example gradient computation, `k3`
to the pre-clipping stage, `k2` to the post-clip perturbation, and `k0`
retained in the returned state. -/
theorem update_key_flow {α K J O : Type} [LinearOrderedField α] (sqrt : α → α)
    (split : K → ℕ → List K) (normal : K → ℕ → List α) (convert : K → J)
    (jsplit : J → ℕ → List J) (jnormal : J → ℕ → List α)
    (optimUpdate : List (List α) → O → O)
    (computePxGrads : O → K → List α × List (List (List α)))
    (c dp : α) (pre : Option α) (state : DPSVIState K O α) (k0 k1 k2 k3 : K)
    (hsplit : split state.rngKey 4 = [k0, k1, k2, k3]) :
    dpsviUpdate sqrt split normal convert jsplit jnormal optimUpdate
        computePxGrads c dp pre state =
      (clipGradientsStage sqrt convert jsplit jnormal state.observationScale
          pre c k3 (computePxGrads state.optimState k1).2
          (computePxGrads state.optimState k1).1.length).map
        (fun clipped =>
          ({ optimState :=
               optimUpdate
                 (perturbAndReassembleGradients split normal
                   state.observationScale k2
                   (combineGradients (computePxGrads state.optimState k1).1
                     clipped).2
                   dp c (computePxGrads state.optimState k1).1.length)
                 state.optimState,
             rngKey := k0,
             observationScale := state.observationScale },
           (combineGradients (computePxGrads state.optimState k1).1 clipped).1)) := by
  unfold dpsviUpdate splitRngKey
  have h4 : (3 : ℕ) + 1 = 4 := rfl
  rw [h4, hsplit]

/-- Witness for C3 amended at a concrete degenerate instantiation. -/
theorem update_key_flow_witness :
    natSplit 0 4 = [0, 1, 2, 3] ∧
    dpsviUpdate (fun x : ℚ => x) natSplit zeroNormal (fun k : ℕ => k) natSplit
        zeroNormal (fun g _ => g) (fun _ _ => ([], [])) 1 0 none
        ⟨([] : List (List ℚ)), 0, 1⟩ =
      (clipGradientsStage (fun x : ℚ => x) (fun k : ℕ => k) natSplit zeroNormal
          (1 : ℚ) none 1 3
          ((fun (_ : List (List ℚ)) (_ : ℕ) =>
              (([] : List ℚ), ([] : List (List (List ℚ))))) [] 1).2
          ((fun (_ : List (List ℚ)) (_ : ℕ) =>
              (([] : List ℚ), ([] : List (List (List ℚ))))) [] 1).1.length).map
        (fun clipped =>
          ({ optimState :=
               (fun (g : List (List ℚ)) (_ : List (List ℚ)) => g)
                 (perturbAndReassembleGradients natSplit zeroNormal (1 : ℚ) 2
                   (combineGradients
                     ((fun (_ : List (List ℚ)) (_ : ℕ) =>
                         (([] : List ℚ), ([] : List (List (List ℚ))))) [] 1).1
                     clipped).2
                   0 1
                   ((fun (_ : List (List ℚ)) (_ : ℕ) =>
                       (([] : List ℚ), ([] : List (List (List ℚ))))) [] 1).1.length)
                 [],
             rngKey := 0,
             observationScale := (1 : ℚ) },
           (combineGradients
             ((fun (_ : List (List ℚ)) (_ : ℕ) =>
                 (([] : List ℚ), ([] : List (List (List ℚ))))) [] 1).1
             clipped).1)) :=
  ⟨by decide,
   update_key_flow (fun x : ℚ => x) natSplit zeroNormal (fun k : ℕ => k)
     natSplit zeroNormal (fun g _ => g) (fun _ _ => ([], [])) 1 0 none
     ⟨([] : List (List ℚ)), 0, 1⟩ 0 1 2 3 (by decide)⟩

/-- A `zipWith` whose function ignores its second argument and returns the
first is the identity on the first list, provided the second list is long
enough (Python `zip` truncates to the shorter operand). -/
lemma zipWith_apply_left {A B : Type} (f : A → B → A) (hf : ∀ a b, f a b = a)
    (la : List A) : ∀ lb : List B, la.length ≤ lb.length →
      List.zipWith f la lb = la := by
  induction la with
  | nil => intro lb _; simp
  | cons a as ih =>
      intro lb hlen
      cases lb with
      | nil => simp at hlen
      | cons b bs =>
          simp only [List.zipWith_cons_cons, hf]
          rw [ih bs (by simpa using hlen)]

/-- Perturbing with noise scale `0` is the identity, whenever the rng suite
returns as many splits and as many normal draws as requested. -/
lemma perturbationFunction_zero_scale {α : Type} [LinearOrderedField α]
    {R : Type} (rsplit : R → ℕ → List R) (rnormal : R → ℕ → List α)
    (hsplit : ∀ k n, (rsplit k n).length = n)
    (hnormal : ∀ k n, (rnormal k n).length = n)
    (rng : R) (values : List (List α)) :
    perturbationFunction rsplit rnormal rng values 0 = values := by
  simp only [perturbationFunction]
  have hfun : (fun (a : List α) (siteRng : R) =>
      List.zipWith (fun x noise => x + noise * (0 : α)) a
        (rnormal siteRng a.length)) = fun a _ => a := by
    funext a siteRng
    exact zipWith_apply_left _ (by intro x n; simp) a _ (by rw [hnormal])
  rw [hfun]
  exact zipWith_apply_left _ (fun _ _ => rfl) values _ (by rw [hsplit])

/-- The clipping stage with pre-clipping noise scale `0` equals the stage
with pre-clipping disabled. -/
lemma clipGradientsStage_zero_preclip {α K J : Type} [LinearOrderedField α]
    (sqrt : α → α) (convert : K → J) (jsplit : J → ℕ → List J)
    (jnormal : J → ℕ → List α)
    (hjs : ∀ k n, (jsplit k n).length = n)
    (hjn : ∀ k n, (jnormal k n).length = n)
    (obsScale c : α) (key : K) (pxGrads : List (List (List α)))
    (batchSize : ℕ) (hb : pxGrads.length ≤ batchSize) :
    clipGradientsStage sqrt convert jsplit jnormal obsScale (some 0) c key
        pxGrads batchSize =
      clipGradientsStage sqrt convert jsplit jnormal obsScale none c key
        pxGrads batchSize := by
  simp only [clipGradientsStage]
  have hfun : (fun (pxGrad : List (List α)) (rng : J) =>
      perturbationFunction jsplit jnormal rng pxGrad (0 : α)) =
      fun pxGrad _ => pxGrad := by
    funext pxGrad rng
    exact perturbationFunction_zero_scale jsplit jnormal hjs hjn rng pxGrad
  rw [hfun]
  rw [zipWith_apply_left _ (fun _ _ => rfl) pxGrads _ (by rw [hjs]; exact hb)]

/-- C5: for every input and every training state, running the update pipeline
with `pre_clipping_noise_scale = 0` produces output identical to running it
with pre-clipping perturbation disabled (`pre_clipping_noise_scale = None`),
whenever the jax rng wrapper honours its shape contract (as many splits and
normal draws as requested) and the per-example gradients carry no more
examples than the per-example loss vector. -/
theorem update_preclip_zero_eq_disabled {α K J O : Type} [LinearOrderedField α]
    (sqrt : α → α) (split : K → ℕ → List K) (normal : K → ℕ → List α)
    (convert : K → J) (jsplit : J → ℕ → List J) (jnormal : J → ℕ → List α)
    (optimUpdate : List (List α) → O → O)
    (computePxGrads : O → K → List α × List (List (List α)))
    (c dp : α) (state : DPSVIState K O α)
    (hjs : ∀ k n, (jsplit k n).length = n)
    (hjn : ∀ k n, (jnormal k n).length = n)
    (hshape : ∀ (o : O) (k : K),
      (computePxGrads o k).2.length ≤ (computePxGrads o k).1.length) :
    dpsviUpdate sqrt split normal convert jsplit jnormal optimUpdate
        computePxGrads c dp (some 0) state =
      dpsviUpdate sqrt split normal convert jsplit jnormal optimUpdate
        computePxGrads c dp none state := by
  unfold dpsviUpdate
  split
  · dsimp only
    rw [clipGradientsStage_zero_preclip _ _ _ _ hjs hjn _ _ _ _ _ (hshape _ _)]
  · rfl

/-- Witness for C5 at a concrete instantiation over `ℚ`. -/
theorem update_preclip_zero_eq_disabled_witness :
    (∀ k n, (natSplit k n).length = n) ∧
    (∀ k n, (zeroNormal k n).length = n) ∧
    (∀ (o : List (List ℚ)) (k : ℕ),
      ((fun (_ : List (List ℚ)) (_ : ℕ) => (([0] : List ℚ), [[[(1 : ℚ)]]])) o k).2.length ≤
        ((fun (_ : List (List ℚ)) (_ : ℕ) => (([0] : List ℚ), [[[(1 : ℚ)]]])) o k).1.length) ∧
    dpsviUpdate (fun x : ℚ => x) natSplit zeroNormal (fun k : ℕ => k) natSplit
        zeroNormal (fun g _ => g)
        (fun (_ : List (List ℚ)) (_ : ℕ) => (([0] : List ℚ), [[[(1 : ℚ)]]]))
        1 1 (some 0) ⟨([] : List (List ℚ)), 0, 1⟩ =
      dpsviUpdate (fun x : ℚ => x) natSplit zeroNormal (fun k : ℕ => k) natSplit
        zeroNormal (fun g _ => g)
        (fun (_ : List (List ℚ)) (_ : ℕ) => (([0] : List ℚ), [[[(1 : ℚ)]]]))
        1 1 none ⟨([] : List (List ℚ)), 0, 1⟩ :=
  ⟨fun k n => by simp [natSplit], fun k n => by simp [zeroNormal],
   fun o k => by simp,
   update_preclip_zero_eq_disabled (fun x : ℚ => x) natSplit zeroNormal
     (fun k : ℕ => k) natSplit zeroNormal (fun g _ => g)
     (fun _ _ => ([0], [[[1]]])) 1 1 ⟨([] : List (List ℚ)), 0, 1⟩
     (fun k n => by simp [natSplit]) (fun k n => by simp [zeroNormal])
     (fun o k => by simp)⟩

/-- C8: if the external optimizer reports mutable internal state,
`DPSVI.init` raises the `UnsupportedState` condition (`RuntimeError`) and
returns no `TrainingState`; conversely any successfully returned state
implies the mutable state was absent, and carries the supplied rng key and
the optimizer state produced by the external `SVI.init`. -/
theorem init_rejects_mutable_state {α K J O M P : Type} [LinearOrderedField α]
    [DecidableEq α] (convert : K → J) (superInit : J → SVIState O M J)
    (superGetParams : O → P) (traceScales : P → List (Option α)) (rngKey : K) :
    ((superInit (convert rngKey)).mutableState ≠ none →
      dpsviInit convert superInit superGetParams traceScales rngKey =
        Except.error "Mutable state is not supported.") ∧
    (∀ st : DPSVIState K O α,
      dpsviInit convert superInit superGetParams traceScales rngKey =
        Except.ok st →
      (superInit (convert rngKey)).mutableState = none ∧
      st.rngKey = rngKey ∧
      st.optimState = (superInit (convert rngKey)).optimState) := by
  constructor
  · intro hmut
    unfold dpsviInit
    rw [if_pos (Option.isSome_iff_ne_none.mpr hmut)]
  · intro st hok
    unfold dpsviInit at hok
    by_cases hmut : (superInit (convert rngKey)).mutableState.isSome
    · rw [if_pos hmut] at hok
      exact absurd hok (by simp)
    · rw [if_neg hmut] at hok
      refine ⟨Option.not_isSome_iff_eq_none.mp hmut, ?_⟩
      rcases hobs : getObservationsScale 1
          (traceScales (superGetParams (superInit (convert rngKey)).optimState))
        with msg | s
      · rw [hobs] at hok
        exact absurd hok (by simp [Except.map])
      · rw [hobs] at hok
        simp only [Except.map, Except.ok.injEq] at hok
        rw [← hok]
        exact ⟨rfl, rfl⟩

/-- Witness for C8: a mutable-state-reporting optimizer is rejected, and a
state-free optimizer passes initialization with the rng key retained. -/
theorem init_rejects_mutable_state_witness :
    dpsviInit (α := ℚ) (fun k : ℕ => k)
        (fun j => (⟨0, some 0, j⟩ : SVIState ℕ ℕ ℕ)) (fun o => o)
        (fun _ => []) 7 =
      Except.error "Mutable state is not supported." ∧
    ((⟨0, none, 7⟩ : SVIState ℕ ℕ ℕ).mutableState = none ∧
      (⟨(0 : ℕ), (7 : ℕ), (1 : ℚ)⟩ : DPSVIState ℕ ℕ ℚ).rngKey = 7 ∧
      (⟨(0 : ℕ), (7 : ℕ), (1 : ℚ)⟩ : DPSVIState ℕ ℕ ℚ).optimState = 0) :=
  ⟨(init_rejects_mutable_state (α := ℚ) (fun k : ℕ => k)
      (fun j => (⟨0, some 0, j⟩ : SVIState ℕ ℕ ℕ)) (fun o => o)
      (fun _ => []) 7).1 (by simp),
   (init_rejects_mutable_state (α := ℚ) (fun k : ℕ => k)
      (fun j => (⟨0, none, j⟩ : SVIState ℕ ℕ ℕ)) (fun o => o)
      (fun _ => []) 7).2 ⟨0, 7, 1⟩ (by rfl)⟩

end D3P
